import Mathlib

/-!
Verification of the preload plugin's link-injection pipeline.

The pipeline (`PreloadPlugin.addLinks` in `src/index.js`) takes a webpack
compilation and an html-webpack-plugin payload, selects the output files
associated with the document, resolves `<link>` attributes per file, and
injects the serialized tags into the document's head.

The embedding below follows `src/index.js` directly.  The helper modules it
requires (`extract-chunks`, `determine-as-value`, `create-html-element-string`,
`insert-links-into-head`, `does-chunk-belong-to-html`) are not part of the
provided source tree; those leaves are modelled from the specification, as
marked in their doc comments.
-/

namespace PreloadPluginModel

/-- A webpack chunk: an identifier plus the list of output file paths it
contributes (spec section 3, "Chunk"). -/
structure Chunk where
  id : Nat
  files : List String
  deriving DecidableEq

/-- The slice of the compilation object read by the pipeline: its chunks and
the configured output public path (`compilation.outputOptions.publicPath`,
which may be absent). -/
structure Compilation where
  chunks : List Chunk
  publicPath : Option String
  deriving DecidableEq

/-- The html-webpack-plugin payload as read by `addLinks`: the in-progress
markup (`htmlPluginData.html`), the chunks already associated with the
document (`Object.values(htmlPluginData.assets.chunks)`), and the document's
output filename (`htmlPluginData.plugin.options.filename`). -/
structure HtmlPluginData where
  html : String
  assetsChunks : List Chunk
  filename : String
  deriving DecidableEq

/-- The `as` configuration option: absent (use the extension inference table),
a fixed string value, or a function of the resolved URL (spec section 6,
"Configuration surface"). -/
inductive AsOption where
  | infer
  | fixed (value : String)
  | byFn (f : String → Option String)

/-- The plugin options read by `addLinks`.  A regular-expression pattern is
embedded as its `test` predicate on strings.  A JS value of `undefined` or
`null` for a pattern list is `none`; a present (possibly empty) array is
`some`. -/
structure Options where
  rel : String
  optionsInclude : String
  fileWhitelist : Option (List (String → Bool))
  fileBlacklist : Option (List (String → Bool))
  optionsAs : AsOption
  excludeHtmlNames : List String

/-- A resolved Link Descriptor: the attribute set built for one selected file
(`attributes` in `addLinks`).  `asValue` and `crossorigin` are optional
attributes. -/
structure LinkAttributes where
  href : String
  rel : String
  asValue : Option String
  crossorigin : Option String
  deriving DecidableEq

/-! ### Chunk extraction and association -/

/-- Modelled from the spec: `extract-chunks` is not in the source tree.
Spec section 4.1: in `allAssets` mode every chunk in the compilation is a
candidate, and in default mode the same full list is returned (association
filtering is deferred to the associator). -/
def extractChunks (compilation : Compilation) (optionsInclude : String) : List Chunk :=
  compilation.chunks

/-- Modelled from the spec: `does-chunk-belong-to-html` is not in the source
tree.  The pre-v4 variant decides association by direct inclusion of the chunk
in the document's `assets.chunks` collection (spec section 4.2). -/
def doesChunkBelongToHTMLv3 (chunk : Chunk) (htmlAssetsChunks : List Chunk) : Bool :=
  htmlAssetsChunks.contains chunk

/-- Modelled from the spec: `does-chunk-belong-to-html` is not in the source
tree.  The v4 variant decides the same association question through a
different object shape (a chunk-group membership check); at this level of
abstraction both variants decide membership of the chunk in the set of chunks
the document-generation stage reported for the document. -/
def doesChunkBelongToHTMLv4 (chunk : Chunk) (htmlAssetsChunks : List Chunk) : Bool :=
  htmlAssetsChunks.contains chunk

/-- The supported webpack version identifiers: the keys of the
`doesChunkBelongToHTML` variant table.  `apply` in `src/index.js` invokes
`addLinks` with exactly `'v3'` and `'v4'`. -/
def supportedWebpackVersions : List String := ["v3", "v4"]

/-- The variant lookup `doesChunkBelongToHTML[webpackVersion]`: `none` when
the identifier is not a key of the table. -/
def doesChunkBelongToHTML (webpackVersion : String) :
    Option (Chunk → List Chunk → Bool) :=
  if webpackVersion = "v3" then some doesChunkBelongToHTMLv3
  else if webpackVersion = "v4" then some doesChunkBelongToHTMLv4
  else none

/-- The message of the `assert` guarding `addLinks`
(`src/index.js` lines 33-34), with the interpolated key list. -/
def invalidVersionMessage : String :=
  "An invalid webpackVersion was supplied. Supported values: v3,v4."

/-! ### File selection -/

/-- Flattening of the chunk file lists:
`htmlChunks.reduce((acc, chunk) => acc.concat(chunk.files), [])`
(`src/index.js` lines 59-61). -/
def flattenChunkFiles (chunks : List Chunk) : List String :=
  chunks.foldl (fun acc c => acc ++ c.files) []

/-- Deduplication via `new Set(allFiles)` followed by spreading
(`src/index.js` lines 62-63): keeps the first occurrence of each element, in
insertion order. -/
def setDedup : List String → List String
  | [] => []
  | x :: xs => x :: (setDedup xs).filter (fun y => y != x)

/-- The whitelist filter predicate (`src/index.js` lines 63-67): pass if
`fileWhitelist` is absent, or some pattern matches the file. -/
def whitelistPass (wl : Option (List (String → Bool))) (file : String) : Bool :=
  match wl with
  | none => true
  | some pats => pats.any (fun p => p file)

/-- The blacklist filter predicate (`src/index.js` lines 68-73): pass if
`fileBlacklist` is absent, or every pattern fails to match the file. -/
def blacklistPass (bl : Option (List (String → Bool))) (file : String) : Bool :=
  match bl with
  | none => true
  | some pats => pats.all (fun p => !p file)

/-- The two chained `.filter` calls of `addLinks` (`src/index.js`
lines 63-73). -/
def filterStage (wl bl : Option (List (String → Bool)))
    (files : List String) : List String :=
  (files.filter (whitelistPass wl)).filter (blacklistPass bl)

/-- JS string comparison, as used by `Array.prototype.sort()` with no
comparator: lexicographic comparison of the character sequences. -/
def strLe (a b : String) : Prop := a.toList ≤ b.toList

instance : DecidableRel strLe :=
  fun a b => inferInstanceAs (Decidable (a.toList ≤ b.toList))

instance : IsTotal String strLe := ⟨fun a b => le_total a.toList b.toList⟩

instance : IsTrans String strLe := ⟨fun _ _ _ h h2 => le_trans h h2⟩

/-- `filteredFiles.sort()` (`src/index.js` line 75): sort by default JS string
comparison. -/
def jsSortStrings (l : List String) : List String := List.insertionSort strLe l

/-- The File Selector stage of `addLinks` (`src/index.js` lines 59-75):
flatten the chunk file lists, deduplicate, filter against the whitelist and
blacklist, and sort. -/
def fileSelector (wl bl : Option (List (String → Bool)))
    (htmlChunks : List Chunk) : List String :=
  jsSortStrings (filterStage wl bl (setDedup (flattenChunkFiles htmlChunks)))

/-! ### Attribute resolution -/

/-- `publicPath || ''` (`src/index.js` line 78): an absent public path
resolves to the empty string (`some ""` is likewise falsy and resolves to
itself). -/
def resolvePublicPath : Option String → String
  | none => ""
  | some s => s

/-- The extension-to-resource-type table.  Modelled from the spec:
`determine-as-value` is not in the source tree; spec section 4.4 lists the
covered categories (script, style, image formats, font formats, audio, video,
document) and requires unrecognized extensions to yield no resource type. -/
def extensionToAs : List (String × String) :=
  [("js", "script"), ("mjs", "script"),
   ("css", "style"),
   ("woff", "font"), ("woff2", "font"), ("ttf", "font"), ("otf", "font"),
   ("eot", "font"),
   ("png", "image"), ("jpg", "image"), ("jpeg", "image"), ("gif", "image"),
   ("svg", "image"), ("webp", "image"),
   ("mp3", "audio"), ("wav", "audio"), ("ogg", "audio"),
   ("mp4", "video"), ("webm", "video"),
   ("html", "document")]

/-- Strip a query string or hash from a URL: keep the characters before the
first `?` or `#`. -/
def stripQueryAndHash (l : List Char) : List Char :=
  l.takeWhile (fun c => !(c == '?' || c == '#'))

/-- The file extension of a URL: the segment after the last `.` of the path
part, or `none` when the path contains no `.`. -/
def extensionOf (href : String) : Option String :=
  let path := stripQueryAndHash href.toList
  let revTail := path.reverse.takeWhile (fun c => c != '.')
  if revTail.length = path.length then none
  else some (String.mk revTail.reverse)

/-- Extension-table inference for the `as` attribute. -/
def inferAsFromExtension (href : String) : Option String :=
  match extensionOf href with
  | none => none
  | some ext => (extensionToAs.find? (fun pair => pair.1 == ext)).map (fun pair => pair.2)

/-- Modelled from the spec: `determine-as-value` is not in the source tree.
Spec section 4.4: an explicit override (fixed value or function of the URL)
wins; otherwise the resource type is inferred from the URL's file extension,
and an unrecognized extension yields no resource type. -/
def determineAsValue (optionsAs : AsOption) (href : String) : Option String :=
  match optionsAs with
  | AsOption.infer => inferAsFromExtension href
  | AsOption.fixed v => some v
  | AsOption.byFn f => f href

/-- The attribute set built for one selected file (`src/index.js`
lines 80-101): `href` is the public path concatenated with the file path;
when `rel` is exactly `"preload"` the `as` attribute is resolved, and when it
resolves to `"font"` the `crossorigin` attribute is set to `"anonymous"`. -/
def buildLinkAttributes (options : Options) (publicPath file : String) :
    LinkAttributes :=
  let href := publicPath ++ file
  if options.rel = "preload" then
    let asv := determineAsValue options.optionsAs href
    { href := href, rel := options.rel, asValue := asv,
      crossorigin := if asv = some "font" then some "anonymous" else none }
  else
    { href := href, rel := options.rel, asValue := none, crossorigin := none }

/-! ### Serialization and head injection -/

/-- One serialized attribute, a space then `name="value"`. -/
def renderAttribute (name value : String) : String :=
  " " ++ name ++ "=\"" ++ value ++ "\""

/-- Modelled from the spec: `create-html-element-string` is not in the source
tree.  Spec section 4.5: render the element with its attributes in insertion
order (`href`, `rel`, then conditionally `as`, then conditionally
`crossorigin`), values rendered literally. -/
def createHTMLElementString (elementName : String) (a : LinkAttributes) : String :=
  "<" ++ elementName ++ renderAttribute "href" a.href ++ renderAttribute "rel" a.rel ++
    (match a.asValue with
     | none => ""
     | some v => renderAttribute "as" v) ++
    (match a.crossorigin with
     | none => ""
     | some v => renderAttribute "crossorigin" v) ++
    ">"

/-- The serialization loop of `addLinks` (`src/index.js` lines 77-108). -/
def buildLinks (options : Options) (publicPath : String)
    (files : List String) : List String :=
  files.map (fun file => createHTMLElementString "link" (buildLinkAttributes options publicPath file))

/-- The closing head tag, lower-cased. -/
def closeHeadChars : List Char := ['<', '/', 'h', 'e', 'a', 'd', '>']

/-- Whether the markup starts with a closing head tag, matched
case-insensitively. -/
def startsWithCloseHead (l : List Char) : Bool :=
  (l.take 7).map Char.toLower == closeHeadChars

/-- Whether the markup contains a closing head tag anywhere, matched
case-insensitively. -/
def containsCloseHead : List Char → Bool
  | [] => false
  | c :: rest => startsWithCloseHead (c :: rest) || containsCloseHead rest

/-- Scan for the first closing head tag and insert the block immediately
before it; when no closing head tag occurs, return the markup unchanged. -/
def insertBlockBeforeCloseHead (block : List Char) : List Char → List Char
  | [] => []
  | c :: rest =>
    if startsWithCloseHead (c :: rest) then block ++ c :: rest
    else c :: insertBlockBeforeCloseHead block rest

/-- Modelled from the spec: `insert-links-into-head` is not in the source
tree.  Spec section 4.6: insert the serialized tags as one contiguous block
immediately before the first closing head tag (case-insensitive match on the
literal sequence); when no closing head tag exists, return the document
unmodified. -/
def insertLinksIntoHead (links : List String) (html : String) : String :=
  String.mk (insertBlockBeforeCloseHead (String.join links).toList html.toList)

/-! ### The pipeline -/

instance {ε α : Type} [DecidableEq ε] [DecidableEq α] :
    DecidableEq (Except ε α) :=
  fun a b =>
    match a, b with
    | Except.error x, Except.error y =>
      match decEq x y with
      | isTrue h => isTrue (h ▸ rfl)
      | isFalse h => isFalse (fun hc => h (by cases hc; rfl))
    | Except.ok x, Except.ok y =>
      match decEq x y with
      | isTrue h => isTrue (h ▸ rfl)
      | isFalse h => isFalse (fun hc => h (by cases hc; rfl))
    | Except.error _, Except.ok _ => isFalse (fun hc => by cases hc)
    | Except.ok _, Except.error _ => isFalse (fun hc => by cases hc)

/-- `PreloadPlugin.addLinks` (`src/index.js` lines 32-116).  The `assert` on
the webpack version and JS exceptions are embedded as `Except.error`. -/
def addLinks (options : Options) (webpackVersion : String)
    (compilation : Compilation) (htmlPluginData : HtmlPluginData) :
    Except String HtmlPluginData :=
  match doesChunkBelongToHTML webpackVersion with
  | none => Except.error invalidVersionMessage
  | some belongs =>
    if htmlPluginData.filename ∈ options.excludeHtmlNames then
      Except.ok htmlPluginData
    else
      let extractedChunks := extractChunks compilation options.optionsInclude
      let htmlChunks :=
        if options.optionsInclude = "allAssets" then extractedChunks
        else extractedChunks.filter (fun chunk => belongs chunk htmlPluginData.assetsChunks)
      let sortedFilteredFiles :=
        fileSelector options.fileWhitelist options.fileBlacklist htmlChunks
      let publicPath := resolvePublicPath compilation.publicPath
      let links := buildLinks options publicPath sortedFilteredFiles
      Except.ok { htmlPluginData with html := insertLinksIntoHead links htmlPluginData.html }

/-! ### The hook registration boundary (`apply`) -/

/-- An opaque handle for a host hook object; only its presence matters. -/
abbrev Hook := String

/-- The state probed and mutated by the compilation callback of `apply`
(`src/index.js` lines 119-152): the pre-v4 html-webpack-plugin hook
(`compilation.hooks.htmlWebpackPluginAfterHtmlProcessing`), the v4 hook
(`HtmlWebpackPlugin.getHooks(compilation).beforeEmit`), and the compilation's
error collection. -/
structure CompilationHookState where
  afterHtmlProcessingHook : Option Hook
  beforeEmitHook : Option Hook
  errors : List String
  deriving DecidableEq

/-- The plugin-ordering error pushed when neither hook is found
(`src/index.js` lines 144-151). -/
def orderingErrorMessage : String :=
  "Unable to tap into the HtmlWebpackPlugin's callbacks. Make sure to list " ++
  "PreloadPlugin at some point after HtmlWebpackPlugin in webpack's plugins array."

/-- Hook selection: the pre-v4 hook if present, otherwise the v4 hook
(`src/index.js` lines 125-142). -/
def selectHtmlHook (s : CompilationHookState) : Option Hook :=
  match s.afterHtmlProcessingHook with
  | some h => some h
  | none => s.beforeEmitHook

/-- The compilation callback of `apply`: tap the selected hook, or, when
neither hook style is found, push the ordering error onto the compilation's
error collection and register nothing (`src/index.js` lines 123-167).
Returns the updated state and the hook tapped, if any. -/
def compilationTapCallback (s : CompilationHookState) :
    CompilationHookState × Option Hook :=
  match selectHtmlHook s with
  | some h => (s, some h)
  | none => ({ s with errors := s.errors ++ [orderingErrorMessage] }, none)

/-- The outcome of one invocation of the tapped hook handler: exactly one
call of the host's callback, on the success or the error channel. -/
inductive CallbackInvocation where
  | success (data : HtmlPluginData)
  | failure (err : String)
  deriving DecidableEq

/-- The handler registered on the html-webpack-plugin hook (`src/index.js`
lines 154-166 for v4, lines 172-180 for pre-v4): run `addLinks` inside
`try`/`catch`, and report a thrown error through `callback(error)` instead of
letting it escape. -/
def htmlHookHandler (options : Options) (webpackVersion : String)
    (compilation : Compilation) (htmlPluginData : HtmlPluginData) :
    CallbackInvocation :=
  match addLinks options webpackVersion compilation htmlPluginData with
  | Except.ok newData => CallbackInvocation.success newData
  | Except.error e => CallbackInvocation.failure e

/-! ### Helper lemmas -/

theorem mem_setDedup (a : String) : ∀ l : List String, (a ∈ setDedup l ↔ a ∈ l)
  | [] => Iff.rfl
  | x :: xs => by
    simp only [setDedup, List.mem_cons, List.mem_filter, bne_iff_ne, ne_eq]
    rw [mem_setDedup a xs]
    by_cases hax : a = x <;> simp [hax]

theorem setDedup_nodup : ∀ l : List String, (setDedup l).Nodup
  | [] => List.nodup_nil
  | x :: xs => by
    refine List.nodup_cons.mpr ⟨?_, List.Nodup.filter _ (setDedup_nodup xs)⟩
    intro hmem
    have h2 := (List.mem_filter.mp hmem).2
    simp at h2

theorem filterStage_nodup (wl bl : Option (List (String → Bool)))
    (files : List String) (h : files.Nodup) : (filterStage wl bl files).Nodup :=
  List.Nodup.filter _ (List.Nodup.filter _ h)

/-! ### Claim theorems -/

/-- C1: for every input set of chunks and every whitelist/blacklist
configuration, the File Selector output of `addLinks` contains no duplicate
paths and is sorted in ascending lexicographic string order. -/
theorem fileSelector_nodup_and_sorted (wl bl : Option (List (String → Bool)))
    (htmlChunks : List Chunk) :
    (fileSelector wl bl htmlChunks).Nodup ∧
    List.Sorted (· ≤ ·) (fileSelector wl bl htmlChunks) := by
  unfold fileSelector jsSortStrings
  constructor
  · exact (List.perm_insertionSort strLe _).symm.nodup
      (filterStage_nodup wl bl _ (setDedup_nodup _))
  · exact List.Pairwise.imp (fun hab => String.le_iff_toList_le.mpr hab)
      (List.sorted_insertionSort strLe _)

/-- C2: a file survives the filtering stage of `addLinks` exactly when it was
among the deduplicated candidates, the whitelist is absent or some whitelist
pattern matches it, and the blacklist is absent or no blacklist pattern
matches it. -/
theorem filterStage_mem_iff (wl bl : Option (List (String → Bool)))
    (files : List String) (file : String) :
    file ∈ filterStage wl bl files ↔
      file ∈ files ∧
      (wl = none ∨ ∃ pats, wl = some pats ∧ ∃ p ∈ pats, p file = true) ∧
      (bl = none ∨ ∃ pats, bl = some pats ∧ ∀ p ∈ pats, p file = false) := by
  cases wl <;> cases bl <;>
    simp [filterStage, whitelistPass, blacklistPass, List.mem_filter,
      List.any_eq_true, List.all_eq_true, Bool.not_eq_true', and_assoc] <;>
    tauto

/-- C3: in every Link Descriptor built by `addLinks`, the `as` and
`crossorigin` attributes can be present only when the configured `rel` is
exactly `"preload"`; `crossorigin` is present exactly when the resolved `as`
value is `"font"`, in which case it is `"anonymous"`; and for
`rel = "prefetch"` neither attribute is ever set. -/
theorem buildLinkAttributes_invariants (options : Options) (publicPath file : String) :
    ((buildLinkAttributes options publicPath file).asValue ≠ none →
      options.rel = "preload") ∧
    ((buildLinkAttributes options publicPath file).crossorigin ≠ none →
      options.rel = "preload") ∧
    ((buildLinkAttributes options publicPath file).crossorigin =
      if (buildLinkAttributes options publicPath file).asValue = some "font"
      then some "anonymous" else none) ∧
    (options.rel = "prefetch" →
      (buildLinkAttributes options publicPath file).asValue = none ∧
      (buildLinkAttributes options publicPath file).crossorigin = none) := by
  unfold buildLinkAttributes
  by_cases h : options.rel = "preload"
  · simp only [if_pos h]
    refine ⟨fun _ => h, fun _ => h, trivial, fun hpre => ?_⟩
    rw [hpre] at h
    exact absurd h (by decide)
  · simp [if_neg h]

/-- Concrete prefetch configuration used to instantiate claim theorems. -/
def prefetchOptions : Options :=
  { rel := "prefetch", optionsInclude := "chunks", fileWhitelist := none,
    fileBlacklist := none, optionsAs := AsOption.infer, excludeHtmlNames := [] }

/-- Concrete preload configuration used to instantiate claim theorems. -/
def preloadOptions : Options :=
  { rel := "preload", optionsInclude := "chunks", fileWhitelist := none,
    fileBlacklist := none, optionsAs := AsOption.infer, excludeHtmlNames := [] }

theorem buildLinkAttributes_invariants_witness :
    ((buildLinkAttributes prefetchOptions "/d/" "a.woff2").asValue = none ∧
     (buildLinkAttributes prefetchOptions "/d/" "a.woff2").crossorigin = none) ∧
    preloadOptions.rel = "preload" :=
  ⟨(buildLinkAttributes_invariants prefetchOptions "/d/" "a.woff2").2.2.2 rfl,
   (buildLinkAttributes_invariants preloadOptions "/d/" "a.woff2").1 (by decide)⟩

theorem insertBlock_of_not_contains (block : List Char) (html : List Char)
    (h : containsCloseHead html = false) :
    insertBlockBeforeCloseHead block html = html := by
  induction html with
  | nil => rfl
  | cons c rest ih =>
    unfold containsCloseHead at h
    rw [Bool.or_eq_false_iff] at h
    unfold insertBlockBeforeCloseHead
    rw [if_neg (by simp [h.1])]
    rw [ih h.2]

theorem insertBlock_of_contains (block : List Char) (html : List Char)
    (h : containsCloseHead html = true) :
    ∃ p s, html = p ++ s ∧ startsWithCloseHead s = true ∧
      (∀ q r2, html = q ++ r2 → s.length < r2.length →
        startsWithCloseHead r2 = false) ∧
      insertBlockBeforeCloseHead block html = p ++ block ++ s := by
  induction html with
  | nil => simp [containsCloseHead] at h
  | cons c rest ih =>
    by_cases hc : startsWithCloseHead (c :: rest) = true
    · refine ⟨[], c :: rest, rfl, hc, ?_, ?_⟩
      · intro q r2 hqr hlen
        exfalso
        have hle : r2.length ≤ (c :: rest).length := by
          rw [hqr, List.length_append]
          omega
        omega
      · unfold insertBlockBeforeCloseHead
        rw [if_pos hc]
        simp
    · have hc0 : startsWithCloseHead (c :: rest) = false :=
        Bool.not_eq_true _ ▸ Bool.of_not_eq_true hc
      have h' : containsCloseHead rest = true := by
        unfold containsCloseHead at h
        rw [hc0] at h
        simpa using h
      obtain ⟨p, s, hps, hsw, hmin, hins⟩ := ih h'
      refine ⟨c :: p, s, by rw [List.cons_append, hps], hsw, ?_, ?_⟩
      · intro q r2 hqr hlen
        cases q with
        | nil =>
          simp only [List.nil_append] at hqr
          rw [← hqr]
          exact hc0
        | cons x q1 =>
          rw [List.cons_append, List.cons.injEq] at hqr
          exact hmin q1 r2 hqr.2 hlen
      · unfold insertBlockBeforeCloseHead
        rw [if_neg hc]
        rw [hins]
        simp

/-- C4: for every markup string, if it contains a closing head tag (matched
case-insensitively) the Head Injector returns the markup with the joined
serialized link tags inserted as one contiguous block immediately before the
first such closing head tag, leaving the rest of the markup unchanged; and if
it contains none, the markup is returned unmodified, with no error. -/
theorem insertLinksIntoHead_spec (links : List String) (html : List Char) :
    (containsCloseHead html = false →
      insertBlockBeforeCloseHead (String.join links).toList html = html) ∧
    (containsCloseHead html = true →
      ∃ p s, html = p ++ s ∧ startsWithCloseHead s = true ∧
        (∀ q r2, html = q ++ r2 → s.length < r2.length →
          startsWithCloseHead r2 = false) ∧
        insertBlockBeforeCloseHead (String.join links).toList html =
          p ++ (String.join links).toList ++ s) :=
  ⟨insertBlock_of_not_contains (String.join links).toList html,
   insertBlock_of_contains (String.join links).toList html⟩

theorem insertLinksIntoHead_spec_witness :
    (insertBlockBeforeCloseHead (String.join ["<link>"]).toList
        "<body></body>".toList = "<body></body>".toList) ∧
    (∃ p s, "<head></HeAd><p>".toList = p ++ s ∧ startsWithCloseHead s = true ∧
      (∀ q r2, "<head></HeAd><p>".toList = q ++ r2 → s.length < r2.length →
        startsWithCloseHead r2 = false) ∧
      insertBlockBeforeCloseHead (String.join ["<link>"]).toList
          "<head></HeAd><p>".toList =
        p ++ (String.join ["<link>"]).toList ++ s) :=
  ⟨(insertLinksIntoHead_spec ["<link>"] "<body></body>".toList).1 (by decide),
   (insertLinksIntoHead_spec ["<link>"] "<head></HeAd><p>".toList).2 (by decide)⟩

theorem doesChunkBelongToHTML_none_iff (v : String) :
    doesChunkBelongToHTML v = none ↔ v ∉ supportedWebpackVersions := by
  unfold doesChunkBelongToHTML supportedWebpackVersions
  by_cases h3 : v = "v3"
  · simp [h3]
  · by_cases h4 : v = "v4" <;> simp [h3, h4]

/-- Concrete fixtures used to instantiate claim theorems. -/
def sampleChunk : Chunk := { id := 0, files := ["app.js", "app.css"] }

def sampleCompilation : Compilation :=
  { chunks := [sampleChunk], publicPath := some "/dist/" }

def samplePayload : HtmlPluginData :=
  { html := "<head></head>", assetsChunks := [sampleChunk],
    filename := "index.html" }

def excludedPayload : HtmlPluginData :=
  { html := "<head></head>", assetsChunks := [sampleChunk],
    filename := "skip.html" }

def excludingOptions : Options :=
  { rel := "preload", optionsInclude := "chunks", fileWhitelist := none,
    fileBlacklist := none, optionsAs := AsOption.infer,
    excludeHtmlNames := ["skip.html"] }

/-- C5: `addLinks` fails fast with the descriptive error naming the supported
version identifiers whenever the supplied identifier is not a supported key,
regardless of the rest of the input; for every supported identifier the check
passes and the pipeline completes. -/
theorem addLinks_version_check (options : Options) (webpackVersion : String)
    (compilation : Compilation) (htmlPluginData : HtmlPluginData) :
    (webpackVersion ∉ supportedWebpackVersions →
      addLinks options webpackVersion compilation htmlPluginData =
        Except.error invalidVersionMessage) ∧
    (webpackVersion ∈ supportedWebpackVersions →
      ∃ d, addLinks options webpackVersion compilation htmlPluginData =
        Except.ok d) := by
  constructor
  · intro hv
    unfold addLinks
    rw [(doesChunkBelongToHTML_none_iff webpackVersion).mpr hv]
  · intro hv
    obtain ⟨f, hf⟩ : ∃ f, doesChunkBelongToHTML webpackVersion = some f := by
      rcases hd : doesChunkBelongToHTML webpackVersion with _ | f
      · exact absurd ((doesChunkBelongToHTML_none_iff _).mp hd) (not_not_intro hv)
      · exact ⟨f, rfl⟩
    unfold addLinks
    simp only [hf]
    by_cases hx : htmlPluginData.filename ∈ options.excludeHtmlNames
    · rw [if_pos hx]
      exact ⟨htmlPluginData, rfl⟩
    · rw [if_neg hx]
      exact ⟨_, rfl⟩

theorem addLinks_version_check_witness :
    (addLinks excludingOptions "v5" sampleCompilation samplePayload =
      Except.error invalidVersionMessage) ∧
    ∃ d, addLinks excludingOptions "v3" sampleCompilation samplePayload =
      Except.ok d :=
  ⟨(addLinks_version_check excludingOptions "v5" sampleCompilation samplePayload).1
      (by decide),
   (addLinks_version_check excludingOptions "v3" sampleCompilation samplePayload).2
      (by decide)⟩

/-- C6: when the document's output filename is listed in `excludeHtmlNames`,
`addLinks` returns the payload unchanged: no chunk extraction, file
selection, tag construction, or markup change happens. -/
theorem addLinks_excluded_unchanged (options : Options) (webpackVersion : String)
    (compilation : Compilation) (htmlPluginData : HtmlPluginData)
    (hv : webpackVersion ∈ supportedWebpackVersions)
    (hx : htmlPluginData.filename ∈ options.excludeHtmlNames) :
    addLinks options webpackVersion compilation htmlPluginData =
      Except.ok htmlPluginData := by
  obtain ⟨f, hf⟩ : ∃ f, doesChunkBelongToHTML webpackVersion = some f := by
    rcases hd : doesChunkBelongToHTML webpackVersion with _ | f
    · exact absurd ((doesChunkBelongToHTML_none_iff _).mp hd) (not_not_intro hv)
    · exact ⟨f, rfl⟩
  unfold addLinks
  simp only [hf]
  rw [if_pos hx]

theorem addLinks_excluded_unchanged_witness :
    addLinks excludingOptions "v3" sampleCompilation excludedPayload =
      Except.ok excludedPayload :=
  addLinks_excluded_unchanged excludingOptions "v3" sampleCompilation
    excludedPayload (by decide) (by decide)

/-- C8: when neither html-webpack-plugin hook style is found, the
compilation callback of `apply` pushes the descriptive plugin-ordering error
onto the compilation's error collection (and registers no handler) instead of
doing nothing or escaping with an exception. -/
theorem apply_missing_hooks_reports_error (s : CompilationHookState)
    (h1 : s.afterHtmlProcessingHook = none) (h2 : s.beforeEmitHook = none) :
    (compilationTapCallback s).1.errors = s.errors ++ [orderingErrorMessage] ∧
    (compilationTapCallback s).2 = none := by
  unfold compilationTapCallback selectHtmlHook
  simp [h1, h2]

def missingHooksState : CompilationHookState :=
  { afterHtmlProcessingHook := none, beforeEmitHook := none, errors := [] }

theorem apply_missing_hooks_reports_error_witness :
    (compilationTapCallback missingHooksState).1.errors =
      missingHooksState.errors ++ [orderingErrorMessage] ∧
    (compilationTapCallback missingHooksState).2 = none :=
  apply_missing_hooks_reports_error missingHooksState rfl rfl

/-- C9: the handler registered on the hook invokes the host callback exactly
once per document: an error produced by `addLinks` is routed to the error
channel (`callback(error)`), and a successful result to the success channel,
so no exception escapes the hook boundary. -/
theorem htmlHookHandler_reports (options : Options) (webpackVersion : String)
    (compilation : Compilation) (htmlPluginData : HtmlPluginData) :
    (∀ e, addLinks options webpackVersion compilation htmlPluginData =
        Except.error e →
      htmlHookHandler options webpackVersion compilation htmlPluginData =
        CallbackInvocation.failure e) ∧
    (∀ d, addLinks options webpackVersion compilation htmlPluginData =
        Except.ok d →
      htmlHookHandler options webpackVersion compilation htmlPluginData =
        CallbackInvocation.success d) := by
  constructor
  · intro e he
    unfold htmlHookHandler
    rw [he]
  · intro d hd
    unfold htmlHookHandler
    rw [hd]

theorem htmlHookHandler_reports_witness :
    htmlHookHandler excludingOptions "v9" sampleCompilation samplePayload =
      CallbackInvocation.failure invalidVersionMessage :=
  (htmlHookHandler_reports excludingOptions "v9" sampleCompilation
    samplePayload).1 invalidVersionMessage (by decide)

/-- C10: when the compilation's public path is absent (or the falsy empty
string), the `href` of a produced tag is the bare file path: the empty string
is used as prefix. -/
theorem href_bare_when_publicPath_absent (options : Options)
    (publicPath : Option String) (file : String)
    (h : publicPath = none ∨ publicPath = some "") :
    (buildLinkAttributes options (resolvePublicPath publicPath) file).href =
      file := by
  have hres : resolvePublicPath publicPath = "" := by
    rcases h with h | h <;> rw [h] <;> rfl
  rw [hres]
  unfold buildLinkAttributes
  by_cases hrel : options.rel = "preload" <;> simp [hrel]

theorem href_bare_when_publicPath_absent_witness :
    (buildLinkAttributes excludingOptions (resolvePublicPath none)
      "main.js").href = "main.js" :=
  href_bare_when_publicPath_absent excludingOptions none "main.js" (Or.inl rfl)

/-- The serialized tag for `/dist/app.js` under `rel:"preload"`. -/
def appJsTag : String := "<link href=\"/dist/app.js\" rel=\"preload\" as=\"script\">"

/-- The serialized tag for `/dist/app.css` under `rel:"preload"`. -/
def appCssTag : String := "<link href=\"/dist/app.css\" rel=\"preload\" as=\"style\">"

/-- C7 counterexample: on the scenario input (one chunk with files
`["app.js", "app.css"]`, no filters, `rel:"preload"`, public path
`"/dist/"`), the pipeline emits the `app.css` tag before the `app.js` tag,
because `"app.css"` sorts before `"app.js"`; the claimed order (`app.js` tag
first) is not produced. -/
theorem scenario_tag_order_counterexample :
    buildLinks excludingOptions "/dist/"
        (fileSelector excludingOptions.fileWhitelist
          excludingOptions.fileBlacklist [sampleChunk]) =
      [appCssTag, appJsTag] ∧
    buildLinks excludingOptions "/dist/"
        (fileSelector excludingOptions.fileWhitelist
          excludingOptions.fileBlacklist [sampleChunk]) ≠
      [appJsTag, appCssTag] := by
  constructor
  · decide
  · decide

/-- C7 (amended): on the scenario input, `addLinks` produces exactly the two
serialized tags `appCssTag` and `appJsTag`, in that sorted order, injected
immediately before the closing head tag. -/
theorem addLinks_scenario_amended :
    addLinks excludingOptions "v4" sampleCompilation samplePayload =
      Except.ok { samplePayload with
        html := "<head>" ++ appCssTag ++ appJsTag ++ "</head>" } := by
  decide

end PreloadPluginModel
